import Mathlib

/-!
Verification development for the visual-db-order-lookup repository.

The repository is a read-only desktop lookup tool over a relational ERP
database.  The subsystem under verification is the hierarchical,
lazily-materialized tree engine: BOM and work-order hierarchies rebuilt
from flat relational rows, with lazy per-node loading, a recursive
full-hierarchy query with a cycle guard, and node classification.

The relational store is modelled as lists of rows; each query function is
a direct translation of the corresponding SQL statement (filters from the
WHERE clause, joins as nested iteration, ORDER BY as a stable insertion
sort on the stated keys).  Display-only columns (quantities, dates,
formatted text) that no claim touches are omitted from the row models.
Python exceptions are modelled with Except; the recursive Python
procedures that have no internal termination bound are given an explicit
fuel parameter, which reproduces the Python result exactly on every input
on which the Python recursion terminates.
-/

namespace VisualOrderLookup

/-! ## String helpers

SQL `LIKE '%' + x + '%'` (substring containment), `ORDER BY` on VARCHAR
columns (lexicographic comparison) and Python `str.startswith` are
modelled over the character lists of the strings. -/

/-- Does the first character list occur at the head of the second? -/
def charsStart : List Char → List Char → Bool
  | [], _ => true
  | _ :: _, [] => false
  | a :: as, b :: bs => a == b && charsStart as bs

/-- Does the first character list occur contiguously anywhere in the second? -/
def charsContain (needle : List Char) : List Char → Bool
  | [] => charsStart needle []
  | c :: cs => charsStart needle (c :: cs) || charsContain needle cs

/-- SQL `hay LIKE '%' + needle + '%'`: substring containment. -/
def strContains (hay needle : String) : Bool :=
  charsContain needle.data hay.data

/-- Python `s.startswith(t)` (used by the simplified-view part filter). -/
def strStartsWith (s t : String) : Bool :=
  charsStart t.data s.data

/-- Lexicographic comparison of character lists, by character code. -/
def charsLe : List Char → List Char → Bool
  | [], _ => true
  | _ :: _, [] => false
  | a :: as, b :: bs => if a == b then charsLe as bs else decide (a < b)

/-- Lexicographic string comparison modelling `ORDER BY` on a VARCHAR column. -/
def strLeB (a b : String) : Bool :=
  charsLe a.data b.data

/-! ## Stable sorting (model of SQL ORDER BY) -/

/-- Insert an element into a sorted list, after any elements it ties with
(the sort below is therefore stable). -/
def insertSorted (le : α → α → Bool) (x : α) : List α → List α
  | [] => [x]
  | y :: ys => if le x y then x :: y :: ys else y :: insertSorted le x ys

/-- Stable insertion sort; models the ORDER BY clause of each query. -/
def sortByB (le : α → α → Bool) : List α → List α
  | [] => []
  | x :: xs => insertSorted le x (sortByB le xs)

theorem mem_insertSorted (le : α → α → Bool) (x a : α) :
    ∀ l : List α, a ∈ insertSorted le x l ↔ a = x ∨ a ∈ l := by
  intro l
  induction l with
  | nil => simp [insertSorted]
  | cons y ys ih =>
    by_cases h : le x y = true
    · simp [insertSorted, h]
    · simp only [insertSorted, if_neg h, List.mem_cons, ih]
      tauto

theorem mem_sortByB (le : α → α → Bool) (a : α) :
    ∀ l : List α, a ∈ sortByB le l ↔ a ∈ l := by
  intro l
  induction l with
  | nil => simp [sortByB]
  | cons x xs ih =>
    simp only [sortByB, mem_insertSorted, List.mem_cons, ih]

/-! ## Work-order data model

Row models for the WORK_ORDER, REQUIREMENT and OPERATION tables
(`database/queries/work_order_queries.py`).  Only the business-key and
flag columns consulted by the hierarchy logic are kept; display-only
quantity/date/notes columns are omitted. -/

/-- A WORK_ORDER row: composite key (BASE_ID, LOT_ID, SUB_ID) plus PART_ID. -/
structure WoRow where
  base_id : String
  lot_id : String
  sub_id : String
  part_id : String
deriving DecidableEq

/-- A REQUIREMENT row.  `subord_wo_sub_id` is the optional SUBORD_WO_SUB_ID
reference to a child work order; `piece_no` is the optional PIECE_NO. -/
structure ReqRow where
  workorder_base_id : String
  workorder_lot_id : String
  workorder_sub_id : String
  operation_seq_no : Nat
  piece_no : Option Nat
  part_id : String
  subord_wo_sub_id : Option String
deriving DecidableEq

/-- An OPERATION row. -/
structure OpRow where
  workorder_base_id : String
  workorder_lot_id : String
  workorder_sub_id : String
  sequence_no : Nat
  resource_id : String
  operation_type : String
deriving DecidableEq

/-- The relational store seen by the work-order queries. -/
structure WoDatabase where
  work_orders : List WoRow
  requirements : List ReqRow
  operations : List OpRow
deriving DecidableEq

/-- Python truthiness of an optional string column (`bool(x)`):
`None` and the empty string are falsy. -/
def optStrTruthy : Option String → Bool
  | none => false
  | some s => !(s == "")

/-- `Requirement.has_child_work_order` (`database/models/work_order.py`):
`bool(self.subord_wo_sub_id)`. -/
def hasChildWorkOrder (r : ReqRow) : Bool :=
  optStrTruthy r.subord_wo_sub_id

/-! ## get_requirements_by_sub_id and get_operations

Direct translations of the SELECTs in `work_order_queries.py`:
filter on the composite key, then ORDER BY the stated sort keys. -/

/-- SQL NULL-first ascending comparison on an optional integer column. -/
def optNatLt : Option Nat → Option Nat → Bool
  | none, none => false
  | none, some _ => true
  | some _, none => false
  | some a, some b => decide (a < b)

/-- Sort key of `get_requirements_by_sub_id`:
ORDER BY OPERATION_SEQ_NO, PIECE_NO, PART_ID. -/
def reqOrderLe (a b : ReqRow) : Bool :=
  if a.operation_seq_no == b.operation_seq_no then
    if a.piece_no == b.piece_no then strLeB a.part_id b.part_id
    else optNatLt a.piece_no b.piece_no
  else decide (a.operation_seq_no ≤ b.operation_seq_no)

/-- `get_requirements_by_sub_id` (`work_order_queries.py`): all REQUIREMENT
rows WHERE WORKORDER_BASE_ID/LOT_ID/SUB_ID match, ordered by
OPERATION_SEQ_NO, PIECE_NO, PART_ID. -/
def get_requirements_by_sub_id (db : WoDatabase) (b l s : String) : List ReqRow :=
  sortByB reqOrderLe
    (db.requirements.filter fun r =>
      r.workorder_base_id == b && r.workorder_lot_id == l && r.workorder_sub_id == s)

/-- `get_operations` (`work_order_queries.py`): OPERATION rows of one work
order, ORDER BY SEQUENCE_NO. -/
def get_operations (db : WoDatabase) (b l s : String) : List OpRow :=
  sortByB (fun a b => decide (a.sequence_no ≤ b.sequence_no))
    (db.operations.filter fun op =>
      op.workorder_base_id == b && op.workorder_lot_id == l && op.workorder_sub_id == s)

/-! ## get_operation_children (flattened detailed-mode query)

Translation of the UNION ALL query in `get_operation_children`
(`work_order_queries.py` lines 415-514): requirements of the operation
(`sort_order_2 = 0`) unioned with the operations of any child work order
referenced by those requirements (`sort_order_1` = the referencing
requirement's PIECE_NO, `sort_order_2` = the child operation's
SEQUENCE_NO), then ORDER BY sort_order_1, sort_order_2. -/

/-- One row of the flattened operation-children result set. -/
structure FlatChild where
  item_type : String
  item_id : String
  sort_order_1 : Option Nat
  sort_order_2 : Nat
  operation_seq_no : Option Nat
  subord_wo_sub_id : Option String
deriving DecidableEq

/-- ORDER BY sort_order_1, sort_order_2 (NULL PIECE_NO sorts first). -/
def flatChildLe (a b : FlatChild) : Bool :=
  if a.sort_order_1 == b.sort_order_1 then decide (a.sort_order_2 ≤ b.sort_order_2)
  else optNatLt a.sort_order_1 b.sort_order_1

/-- `get_operation_children`: the union of the requirement branch and the
child-work-order operation branch, ordered by (sort_order_1, sort_order_2). -/
def get_operation_children (db : WoDatabase) (b l s : String) (operation_seq : Nat) :
    List FlatChild :=
  let reqRows :=
    (db.requirements.filter fun r =>
        r.workorder_base_id == b && r.workorder_lot_id == l &&
        r.workorder_sub_id == s && r.operation_seq_no == operation_seq).map
      fun r =>
        { item_type := "REQUIREMENT"
          item_id := r.part_id
          sort_order_1 := r.piece_no
          sort_order_2 := 0
          operation_seq_no := some r.operation_seq_no
          subord_wo_sub_id := r.subord_wo_sub_id }
  let childOpRows :=
    (db.requirements.filter fun r =>
        r.workorder_base_id == b && r.workorder_lot_id == l &&
        r.workorder_sub_id == s && r.operation_seq_no == operation_seq &&
        r.subord_wo_sub_id.isSome).flatMap
      fun r =>
        (db.operations.filter fun op =>
            op.workorder_base_id == r.workorder_base_id &&
            op.workorder_lot_id == r.workorder_lot_id &&
            some op.workorder_sub_id == r.subord_wo_sub_id).map
          fun op =>
            { item_type := "CHILD_OPERATION"
              item_id := toString op.sequence_no ++ " " ++ op.resource_id
              sort_order_1 := r.piece_no
              sort_order_2 := op.sequence_no
              operation_seq_no := none
              subord_wo_sub_id := r.subord_wo_sub_id }
  sortByB flatChildLe (reqRows ++ childOpRows)

/-! ## get_work_order_hierarchy (recursive CTE, lines 877-927)

The recursive CTE `WorkOrderHierarchy` is modelled level by level: the
anchor member produces the rows at depth 0, and each application of the
recursive member derives the next level from the previous one.  The
recursive member joins REQUIREMENT rows owned by a hierarchy row to the
WORK_ORDER row whose SUB_ID equals the requirement's SUBORD_WO_SUB_ID,
guarded by `woh.depth < max_depth` and by the circular-reference check
`woh.path NOT LIKE '%' + BASE_ID + '/' + LOT_ID + '/' + SUB_ID + '%'`
(substring containment on the accumulated path string).  Since every row
of level `n` has depth `n`, the CTE is exhausted after `max_depth + 1`
levels, which is the fuel used below.  The final SELECT orders by path. -/

/-- One row of the WorkOrderHierarchy CTE. -/
structure HierarchyRow where
  base_id : String
  lot_id : String
  sub_id : String
  part_id : String
  depth : Nat
  path : String
deriving DecidableEq

/-- `BASE_ID + '/' + LOT_ID + '/' + SUB_ID`, the composite-key string used
in both the path accumulator and the cycle guard. -/
def woKeyStr (w : WoRow) : String :=
  w.base_id ++ "/" ++ w.lot_id ++ "/" ++ w.sub_id

/-- Anchor member of the CTE: the root work order at depth 0. -/
def hierarchyAnchor (db : WoDatabase) (b l s : String) : List HierarchyRow :=
  (db.work_orders.filter fun w =>
      w.base_id == b && w.lot_id == l && w.sub_id == s).map
    fun w =>
      { base_id := w.base_id, lot_id := w.lot_id, sub_id := w.sub_id
        part_id := w.part_id, depth := 0, path := woKeyStr w }

/-- Recursive member of the CTE: child work orders of the current level,
reached through REQUIREMENT.SUBORD_WO_SUB_ID, with the depth guard and the
substring-based circular-reference guard of the WHERE clause. -/
def hierarchyStep (db : WoDatabase) (max_depth : Nat) (cur : List HierarchyRow) :
    List HierarchyRow :=
  cur.flatMap fun woh =>
    db.requirements.flatMap fun req =>
      if req.workorder_base_id == woh.base_id && req.workorder_lot_id == woh.lot_id &&
          req.workorder_sub_id == woh.sub_id then
        db.work_orders.flatMap fun wo =>
          if req.subord_wo_sub_id == some wo.sub_id &&
              req.workorder_base_id == wo.base_id && req.workorder_lot_id == wo.lot_id &&
              decide (woh.depth < max_depth) && !(strContains woh.path (woKeyStr wo)) then
            [{ base_id := wo.base_id, lot_id := wo.lot_id, sub_id := wo.sub_id
               part_id := wo.part_id, depth := woh.depth + 1
               path := woh.path ++ " -> " ++ woKeyStr wo }]
          else []
      else []

/-- All rows produced by iterating the recursive member `fuel` times
starting from a given level. -/
def hierarchyLevels (db : WoDatabase) (max_depth : Nat) :
    Nat → List HierarchyRow → List HierarchyRow
  | 0, _ => []
  | fuel + 1, cur => cur ++ hierarchyLevels db max_depth fuel (hierarchyStep db max_depth cur)

/-- `get_work_order_hierarchy` (`work_order_queries.py`): the full CTE
result, ORDER BY path.  `max_depth + 1` levels exhaust the CTE because
level `n` only holds rows of depth `n` and the recursive member requires
`depth < max_depth`. -/
def get_work_order_hierarchy (db : WoDatabase) (b l s : String) (max_depth : Nat) :
    List HierarchyRow :=
  sortByB (fun r₁ r₂ => strLeB r₁.path r₂.path)
    (hierarchyLevels db max_depth (max_depth + 1) (hierarchyAnchor db b l s))

/-- `WorkOrderService.get_work_order_hierarchy` (`work_order_service.py`
lines 373-415): validates `1 <= max_depth <= 50` before issuing the query,
raising ValueError otherwise. -/
def serviceGetWorkOrderHierarchy (db : WoDatabase) (b l s : String) (max_depth : Int) :
    Except String (List HierarchyRow) :=
  if max_depth < 1 ∨ max_depth > 50 then
    Except.error "max_depth must be between 1 and 50"
  else
    Except.ok (get_work_order_hierarchy db b l s max_depth.toNat)

/-- Comparison variant of the hierarchy query whose cycle guard is exact
membership of the candidate child's composite key in the ordered
path-to-root key set, as the spec describes the guard (spec sections 4.3
and 9); used only to compare with the substring guard the code actually
implements. -/
structure KeyHierarchyRow where
  base_id : String
  lot_id : String
  sub_id : String
  depth : Nat
  path_keys : List String
deriving DecidableEq

/-- One recursive step of the exact-key-set comparison variant. -/
def keyHierarchyStep (db : WoDatabase) (max_depth : Nat) (cur : List KeyHierarchyRow) :
    List KeyHierarchyRow :=
  cur.flatMap fun woh =>
    db.requirements.flatMap fun req =>
      if req.workorder_base_id == woh.base_id && req.workorder_lot_id == woh.lot_id &&
          req.workorder_sub_id == woh.sub_id then
        db.work_orders.flatMap fun wo =>
          if req.subord_wo_sub_id == some wo.sub_id &&
              req.workorder_base_id == wo.base_id && req.workorder_lot_id == wo.lot_id &&
              decide (woh.depth < max_depth) && !(woh.path_keys.contains (woKeyStr wo)) then
            [{ base_id := wo.base_id, lot_id := wo.lot_id, sub_id := wo.sub_id
               depth := woh.depth + 1, path_keys := woh.path_keys ++ [woKeyStr wo] }]
          else []
      else []

/-- Levels of the exact-key-set comparison variant. -/
def keyHierarchyLevels (db : WoDatabase) (max_depth : Nat) :
    Nat → List KeyHierarchyRow → List KeyHierarchyRow
  | 0, _ => []
  | fuel + 1, cur =>
    cur ++ keyHierarchyLevels db max_depth fuel (keyHierarchyStep db max_depth cur)

/-- The hierarchy traversal with the spec's exact-membership cycle guard
in place of the code's substring guard (comparison definition only). -/
def keySetWorkOrderHierarchy (db : WoDatabase) (b l s : String) (max_depth : Nat) :
    List KeyHierarchyRow :=
  keyHierarchyLevels db max_depth (max_depth + 1)
    ((db.work_orders.filter fun w =>
        w.base_id == b && w.lot_id == l && w.sub_id == s).map
      fun w =>
        { base_id := w.base_id, lot_id := w.lot_id, sub_id := w.sub_id
          depth := 0, path_keys := [woKeyStr w] })

/-! ## Work-order tree widget (`ui/engineering/work_order_tree_widget.py`)

`TreeNodeData` is the per-item metadata driving lazy loading.  The expand
handler `_on_item_expanded` is modelled as a state transition on the
expanded item: it returns immediately when `children_loaded` is set,
otherwise it runs the loader once (counted by `query_count`); on success
it appends the loaded children and sets `children_loaded`, on failure it
appends a single disabled error item and leaves `children_loaded` false.
The loader is passed in as an `Except` value, which models "no
intervening data change" between two expansions of the same node. -/

/-- The `TreeNodeData` dataclass stored on every tree item. -/
structure TreeNodeData where
  node_type : String
  base_id : String
  lot_id : String
  sub_id : String
  operation_seq : Option Nat := none
  part_id : Option String := none
  children_loaded : Bool := false
deriving DecidableEq

/-- A child row attached under a tree item: either a real data node or the
synthetic disabled error item created in the `except` branch of
`_on_item_expanded`. -/
inductive ChildItem where
  | dataItem : TreeNodeData → ChildItem
  | errorItem : String → ChildItem
deriving DecidableEq

/-- Observable expansion state of one tree item: its `children_loaded`
flag, its attached children and the number of child queries issued so far
on its behalf. -/
structure ExpandState where
  children_loaded : Bool
  children : List ChildItem
  query_count : Nat
deriving DecidableEq

/-- `_on_item_expanded`: return immediately when already loaded; otherwise
issue the child query once, then either attach the children and mark
loaded, or attach one "Error: ..." item and leave the flag unset. -/
def onItemExpanded (loader : Except String (List TreeNodeData)) (st : ExpandState) :
    ExpandState :=
  if st.children_loaded then st
  else
    match loader with
    | Except.ok cs =>
      { children_loaded := true
        children := st.children ++ cs.map ChildItem.dataItem
        query_count := st.query_count + 1 }
    | Except.error msg =>
      { children_loaded := false
        children := st.children ++ [ChildItem.errorItem ("Error: " ++ msg)]
        query_count := st.query_count + 1 }

/-- `_load_all_requirements` (simplified view, lines 204-278): query the
requirements of the node's own SUB_ID, keep only those fulfilled by a
child work order, and create one SUB_WORK_ORDER child node per kept
requirement whose `sub_id` is the requirement's SUBORD_WO_SUB_ID.  No
path-to-root information is consulted. -/
def loadAllRequirements (db : WoDatabase) (nd : TreeNodeData) : List TreeNodeData :=
  ((get_requirements_by_sub_id db nd.base_id nd.lot_id nd.sub_id).filter
      hasChildWorkOrder).map
    fun r =>
      { node_type := "SUB_WORK_ORDER"
        base_id := nd.base_id
        lot_id := nd.lot_id
        sub_id := r.subord_wo_sub_id.getD ""
        children_loaded := false }

/-- The OPERATION child node `_load_operations` creates for one operation
row (lines 331-418). -/
def opItem (nd : TreeNodeData) (op : OpRow) : TreeNodeData :=
  { node_type := "OPERATION"
    base_id := nd.base_id
    lot_id := nd.lot_id
    sub_id := nd.sub_id
    operation_seq := some op.sequence_no
    children_loaded := false }

/-- The child-item sequence `_load_operations` attaches: one item per
operation row, created in iteration order by the for loop. -/
def loadOperationsItems (nd : TreeNodeData) : List OpRow → List TreeNodeData
  | [] => []
  | op :: rest => opItem nd op :: loadOperationsItems nd rest

/-- The simplified-view filter of `_load_requirements` (lines 459-470): a
REQUIREMENT row is shown when it references a child work order or its part
id starts with "M"; CHILD_OPERATION rows are always shown. -/
def shownInSimplified (c : FlatChild) : Bool :=
  if c.item_type == "REQUIREMENT" then
    optStrTruthy c.subord_wo_sub_id || strStartsWith c.item_id "M"
  else true

/-- The child rows `_load_requirements` displays for an operation node, in
order: everything in detailed mode, the simplified-view subset otherwise. -/
def loadRequirementsShown (detailed : Bool) (children : List FlatChild) : List FlatChild :=
  children.filter fun c => detailed || shownInSimplified c

/-! ## BOM model (`services/bom_service.py`, `database/models/core.py`)

WORK_ORDER rows as seen by the BOM queries: composite key, the optional
BASE_LOT_ID parent link, and the PART table's FABRICATED/PURCHASED flags
obtained by the LEFT JOIN. -/

/-- A WORK_ORDER row joined with its PART flags, as selected by the BOM
queries. -/
structure BomRow where
  base_id : String
  lot_id : String
  sub_id : String
  base_lot_id : Option String
  part_id : String
  fabricated : Bool
  purchased : Bool
deriving DecidableEq

/-- The `BOMNode` dataclass (`database/models/core.py` lines 625-675). -/
structure BOMNode where
  job_number : String
  lot_id : String
  sub_id : String
  base_lot_id : Option String
  part_id : String
  node_type : String
  is_fabricated : Bool
  is_purchased : Bool
  depth : Nat := 0
  is_loaded : Bool := false
deriving DecidableEq

/-- `BOMNode.display_color`: assembly is blue, purchased is red, anything
else is black; a fixed table. -/
def BOMNode.display_color (n : BOMNode) : String :=
  if n.node_type == "assembly" then "blue"
  else if n.node_type == "purchased" then "red"
  else "black"

/-- `BOMNode.is_assembly`: `node_type == "assembly"`. -/
def BOMNode.isAssemblyB (n : BOMNode) : Bool :=
  n.node_type == "assembly"

/-- The node-type decision of `get_assembly_parts` (lines 183-189):
has-children first, then the purchased flag, else manufactured.  The
row's LOT_ID is not consulted. -/
def partNodeType (has_children is_purchased : Bool) : String :=
  if has_children then "assembly"
  else if is_purchased then "purchased"
  else "manufactured"

/-- The has_children flag of the `get_assembly_parts` query: EXISTS a
WORK_ORDER row of the same BASE_ID whose BASE_LOT_ID equals this row's
LOT_ID. -/
def hasChildrenFlag (db : List BomRow) (w : BomRow) : Bool :=
  db.any fun w2 => w2.base_id == w.base_id && w2.base_lot_id == some w.lot_id

/-- `BOMService.get_bom_assemblies`: rows of the job with LOT_ID = '00',
ordered by SUB_ID, each classified "assembly" unconditionally, at depth 0
and not yet loaded. -/
def get_bom_assemblies (db : List BomRow) (job : String) : List BOMNode :=
  (sortByB (fun a b => strLeB a.sub_id b.sub_id)
      (db.filter fun w => w.base_id == job && w.lot_id == "00")).map
    fun w =>
      { job_number := w.base_id, lot_id := w.lot_id, sub_id := w.sub_id
        base_lot_id := w.base_lot_id, part_id := w.part_id
        node_type := "assembly"
        is_fabricated := w.fabricated, is_purchased := w.purchased
        depth := 0, is_loaded := false }

/-- `BOMService.get_assembly_parts` (lines 136-211): rows of the job whose
BASE_LOT_ID equals the parent assembly's LOT_ID, ordered by SUB_ID,
classified by `partNodeType` from the query's has_children flag and the
purchased flag, at depth 1, loaded unless they are assemblies. -/
def get_assembly_parts (db : List BomRow) (job lot : String) : List BOMNode :=
  (sortByB (fun a b => strLeB a.sub_id b.sub_id)
      (db.filter fun w => w.base_id == job && w.base_lot_id == some lot)).map
    fun w =>
      let hc := hasChildrenFlag db w
      { job_number := w.base_id, lot_id := w.lot_id, sub_id := w.sub_id
        base_lot_id := w.base_lot_id, part_id := w.part_id
        node_type := partNodeType hc w.purchased
        is_fabricated := w.fabricated, is_purchased := w.purchased
        depth := 1, is_loaded := !hc }

/-- `BOMService._load_hierarchy_recursive` (lines 247-268): append each
part at the current depth and recurse into assemblies with depth + 1.  The
Python procedure has no depth bound and no cycle guard; `fuel` only makes
the Lean function total and reproduces the Python result whenever the
Python recursion terminates. -/
def loadHierarchyRec (db : List BomRow) (job : String) :
    Nat → String → Nat → List BOMNode
  | 0, _, _ => []
  | fuel + 1, lot, depth =>
    (get_assembly_parts db job lot).flatMap fun p =>
      { p with depth := depth } ::
        (if p.isAssemblyB then loadHierarchyRec db job fuel p.lot_id (depth + 1) else [])

/-- `BOMService.get_bom_hierarchy` (lines 213-245): all top-level
assemblies first, then, for each assembly in turn, its recursively loaded
descendants starting at depth 1. -/
def get_bom_hierarchy (db : List BomRow) (job : String) (fuel : Nat) : List BOMNode :=
  let assemblies := get_bom_assemblies db job
  assemblies ++ assemblies.flatMap fun a => loadHierarchyRec db job fuel a.lot_id 1

/-! ## Lazy BOM tree (`ui/bom_tree_view.py`, `ui/engineering_module.py`)

Expanding an item (`BOMTreeView._on_item_expanded`) does nothing when the
node is loaded or is not an assembly; otherwise the module loads
`get_assembly_parts(job, node.lot_id)` and attaches the parts in query
order (`add_parts_to_assembly`).  `lazyPreorder` is the pre-order node
sequence of the tree obtained by expanding every expandable node, with
`fuel` bounding the expansion depth below the node. -/

/-- Pre-order node sequence of the fully-expanded lazy BOM tree below one
node. -/
def lazyPreorder (db : List BomRow) (job : String) : Nat → BOMNode → List BOMNode
  | 0, n => [n]
  | fuel + 1, n =>
    n ::
      (if !n.is_loaded && n.isAssemblyB then
        (get_assembly_parts db job n.lot_id).flatMap (lazyPreorder db job fuel)
      else [])

/-- Pre-order node sequence of the whole lazy tree: every top-level
assembly expanded recursively. -/
def lazyExpandAll (db : List BomRow) (job : String) (fuel : Nat) : List BOMNode :=
  (get_bom_assemblies db job).flatMap (lazyPreorder db job fuel)

/-- Identity view of a BOM node: the eager builder rewrites `depth` and
the lazy tree mutates `is_loaded` after expansion, so tree-shape
comparisons are made with both load-state fields normalised. -/
def bomShape (n : BOMNode) : BOMNode :=
  { n with depth := 0, is_loaded := false }

/-- Number of non-assembly (leaf) nodes in a node list. -/
def leafCount (l : List BOMNode) : Nat :=
  l.countP fun n => !n.isAssemblyB

/-- `BOMTreeView.add_parts_to_assembly` (lines 87-114): the dummy
"Loading..." child is removed first, then the parts are appended one at a
time by the for loop, in the given order. -/
def addPartsToAssembly (existing : List BOMNode) : List BOMNode → List BOMNode
  | [] => existing
  | p :: rest => addPartsToAssembly (existing ++ [p]) rest

/-- Observable expansion state of one BOM tree item: the node's
`is_loaded`/`is_assembly` state, the attached real children (the dummy
"Loading..." child is tracked separately), and the number of child
queries issued on its behalf. -/
structure BomExpandState where
  is_loaded : Bool
  is_assembly : Bool
  children : List BOMNode
  has_dummy : Bool
  query_count : Nat
deriving DecidableEq

/-- `BOMTreeView._on_item_expanded` (lines 49-66) combined with the
module's load and `add_parts_to_assembly`: a no-op when the node is
loaded or is not an assembly; otherwise the parts query runs once, the
dummy child is removed, the parts are attached in order, and the node is
marked loaded. -/
def bomOnItemExpanded (parts : List BOMNode) (st : BomExpandState) : BomExpandState :=
  if st.is_loaded || !st.is_assembly then st
  else
    { is_loaded := true
      is_assembly := st.is_assembly
      children := addPartsToAssembly st.children parts
      has_dummy := false
      query_count := st.query_count + 1 }

/-! ## Service error model (`services/work_order_service.py` lines 217-255)

A pyodbc failure raised by the query layer and the typed service error it
is wrapped into (`raise WorkOrderServiceError(msg) from e`). -/

/-- A database-layer failure (pyodbc.Error). -/
structure DbError where
  message : String
deriving DecidableEq

/-- `WorkOrderServiceError`, carrying its formatted message and the
underlying database error it was raised from. -/
structure ServiceError where
  message : String
  cause : Option DbError
deriving DecidableEq

/-- `WorkOrderService.get_requirements_by_sub_id`: the query result is
returned unchanged (an empty row list stays an empty list); a
database-layer failure is re-raised as a `WorkOrderServiceError` carrying
the formatted message and the original error as its cause. -/
def serviceGetRequirementsBySubId (queryResult : Except DbError (List ReqRow)) :
    Except ServiceError (List ReqRow) :=
  match queryResult with
  | Except.ok rows => Except.ok rows
  | Except.error e =>
    Except.error
      { message := "Database error loading requirements by SUB_ID: " ++ e.message
        cause := some e }

/-! ## Concrete datasets used by the claim theorems -/

/-- Cyclic dataset: work order A = 8113/26/0 has a sub-work-order
requirement pointing to B = 8113/26/346, and B has one pointing back to
A. -/
def dbAB : WoDatabase :=
  { work_orders :=
      [ { base_id := "8113", lot_id := "26", sub_id := "0", part_id := "PARTA" }
      , { base_id := "8113", lot_id := "26", sub_id := "346", part_id := "PARTB" } ]
    requirements :=
      [ { workorder_base_id := "8113", workorder_lot_id := "26", workorder_sub_id := "0"
          operation_seq_no := 10, piece_no := some 1, part_id := "PB"
          subord_wo_sub_id := some "346" }
      , { workorder_base_id := "8113", workorder_lot_id := "26", workorder_sub_id := "346"
          operation_seq_no := 10, piece_no := some 1, part_id := "PA"
          subord_wo_sub_id := some "0" } ]
    operations := [] }

/-- The widget root node for work order 8113/26/0 of `dbAB`. -/
def rootNodeA : TreeNodeData :=
  { node_type := "WORK_ORDER_ROOT", base_id := "8113", lot_id := "26", sub_id := "0" }

/-- The SUB_WORK_ORDER child node the widget creates for 8113-346/26. -/
def subNodeB : TreeNodeData :=
  { node_type := "SUB_WORK_ORDER", base_id := "8113", lot_id := "26", sub_id := "346" }

/-- The SUB_WORK_ORDER child node the widget creates for 8113-0/26 when
expanding `subNodeB`. -/
def subNodeA : TreeNodeData :=
  { node_type := "SUB_WORK_ORDER", base_id := "8113", lot_id := "26", sub_id := "0" }

/-- Acyclic dataset in which one composite-key string is a proper
substring of an ancestor's: the root is 8113/26/10 and its requirement
points to the distinct work order 8113/26/1. -/
def dbSubstr : WoDatabase :=
  { work_orders :=
      [ { base_id := "8113", lot_id := "26", sub_id := "10", part_id := "P10" }
      , { base_id := "8113", lot_id := "26", sub_id := "1", part_id := "P1" } ]
    requirements :=
      [ { workorder_base_id := "8113", workorder_lot_id := "26", workorder_sub_id := "10"
          operation_seq_no := 10, piece_no := some 1, part_id := "P1"
          subord_wo_sub_id := some "1" } ]
    operations := [] }

/-- Flattened-merge dataset: operation 10 of 6671/28/0 has plain
requirements at pieces 1 and 3 and a child-work-order requirement at
piece 2 referencing 6671/28/1, which has one operation. -/
def dbMerge : WoDatabase :=
  { work_orders :=
      [ { base_id := "6671", lot_id := "28", sub_id := "0", part_id := "PT" }
      , { base_id := "6671", lot_id := "28", sub_id := "1", part_id := "PC" } ]
    requirements :=
      [ { workorder_base_id := "6671", workorder_lot_id := "28", workorder_sub_id := "0"
          operation_seq_no := 10, piece_no := some 1, part_id := "M100"
          subord_wo_sub_id := none }
      , { workorder_base_id := "6671", workorder_lot_id := "28", workorder_sub_id := "0"
          operation_seq_no := 10, piece_no := some 2, part_id := ""
          subord_wo_sub_id := some "1" }
      , { workorder_base_id := "6671", workorder_lot_id := "28", workorder_sub_id := "0"
          operation_seq_no := 10, piece_no := some 3, part_id := "M300"
          subord_wo_sub_id := none } ]
    operations :=
      [ { workorder_base_id := "6671", workorder_lot_id := "28", workorder_sub_id := "0"
          sequence_no := 10, resource_id := "100", operation_type := "MECH. ENG." }
      , { workorder_base_id := "6671", workorder_lot_id := "28", workorder_sub_id := "1"
          sequence_no := 10, resource_id := "500", operation_type := "MECH. ASSEMBLY" } ] }

/-- BOM dataset forming a 13-level chain of assemblies under job "J"
(lots 00, L1, ..., L12), acyclic, so the Python recursion terminates. -/
def bomChainDb : List BomRow :=
  [ { base_id := "J", lot_id := "00", sub_id := "0", base_lot_id := none
      part_id := "P0", fabricated := true, purchased := false }
  , { base_id := "J", lot_id := "L1", sub_id := "0", base_lot_id := some "00"
      part_id := "P1", fabricated := true, purchased := false }
  , { base_id := "J", lot_id := "L2", sub_id := "0", base_lot_id := some "L1"
      part_id := "P2", fabricated := true, purchased := false }
  , { base_id := "J", lot_id := "L3", sub_id := "0", base_lot_id := some "L2"
      part_id := "P3", fabricated := true, purchased := false }
  , { base_id := "J", lot_id := "L4", sub_id := "0", base_lot_id := some "L3"
      part_id := "P4", fabricated := true, purchased := false }
  , { base_id := "J", lot_id := "L5", sub_id := "0", base_lot_id := some "L4"
      part_id := "P5", fabricated := true, purchased := false }
  , { base_id := "J", lot_id := "L6", sub_id := "0", base_lot_id := some "L5"
      part_id := "P6", fabricated := true, purchased := false }
  , { base_id := "J", lot_id := "L7", sub_id := "0", base_lot_id := some "L6"
      part_id := "P7", fabricated := true, purchased := false }
  , { base_id := "J", lot_id := "L8", sub_id := "0", base_lot_id := some "L7"
      part_id := "P8", fabricated := true, purchased := false }
  , { base_id := "J", lot_id := "L9", sub_id := "0", base_lot_id := some "L8"
      part_id := "P9", fabricated := true, purchased := false }
  , { base_id := "J", lot_id := "LA", sub_id := "0", base_lot_id := some "L9"
      part_id := "PA", fabricated := true, purchased := false }
  , { base_id := "J", lot_id := "LB", sub_id := "0", base_lot_id := some "LA"
      part_id := "PB", fabricated := true, purchased := false }
  , { base_id := "J", lot_id := "LC", sub_id := "0", base_lot_id := some "LB"
      part_id := "PC", fabricated := true, purchased := false } ]

/-- BOM dataset with two top-level assemblies that share their children
(both have LOT_ID "00") plus one leaf part under lot "00". -/
def bomTwoAsmDb : List BomRow :=
  [ { base_id := "J", lot_id := "00", sub_id := "1", base_lot_id := none
      part_id := "PA1", fabricated := true, purchased := false }
  , { base_id := "J", lot_id := "00", sub_id := "2", base_lot_id := none
      part_id := "PA2", fabricated := true, purchased := false }
  , { base_id := "J", lot_id := "10", sub_id := "3", base_lot_id := some "00"
      part_id := "PP", fabricated := true, purchased := false } ]

/-- BOM dataset with a LOT_ID "00" row reachable through the parts query:
it has a BASE_LOT_ID link to assembly lot "10", the purchased flag set and
no children. -/
def bomLot00PartDb : List BomRow :=
  [ { base_id := "J", lot_id := "10", sub_id := "1", base_lot_id := none
      part_id := "PP", fabricated := true, purchased := false }
  , { base_id := "J", lot_id := "00", sub_id := "2", base_lot_id := some "10"
      part_id := "PX", fabricated := false, purchased := true } ]

/-! ## Shared helper lemmas -/

theorem flatMap_congr_mem {l : List α} {f g : α → List β}
    (h : ∀ x ∈ l, f x = g x) : l.flatMap f = l.flatMap g := by
  induction l with
  | nil => rfl
  | cons a as ih =>
    simp only [List.flatMap_cons]
    rw [h a (List.mem_cons_self a as), ih fun x hx => h x (List.mem_cons_of_mem a hx)]

theorem map_flatMap_comm (g : β → γ) (f : α → List β) :
    ∀ l : List α, (l.flatMap f).map g = l.flatMap fun a => (f a).map g := by
  intro l
  induction l with
  | nil => rfl
  | cons a as ih => simp only [List.flatMap_cons, List.map_append, ih]

theorem flatMap_const_nil : ∀ l : List α, (l.flatMap fun _ => ([] : List β)) = [] := by
  intro l
  induction l with
  | nil => rfl
  | cons a as ih => simp only [List.flatMap_cons, List.nil_append, ih]

theorem flatMap_id_singleton : ∀ l : List α, (l.flatMap fun a => [a]) = l := by
  intro l
  induction l with
  | nil => rfl
  | cons a as ih => simp only [List.flatMap_cons, List.singleton_append, ih]

theorem addPartsToAssembly_eq_append :
    ∀ (parts existing : List BOMNode), addPartsToAssembly existing parts = existing ++ parts := by
  intro parts
  induction parts with
  | nil => intro existing; simp [addPartsToAssembly]
  | cons p rest ih =>
    intro existing
    simp only [addPartsToAssembly, ih, List.append_assoc, List.singleton_append]

theorem loadOperationsItems_eq_map (nd : TreeNodeData) :
    ∀ ops : List OpRow, loadOperationsItems nd ops = ops.map (opItem nd) := by
  intro ops
  induction ops with
  | nil => rfl
  | cons op rest ih => simp only [loadOperationsItems, List.map_cons, ih]

theorem isAssemblyB_of_partNodeType (hc p : Bool) :
    (partNodeType hc p == "assembly") = hc := by
  cases hc <;> cases p <;> decide

theorem get_assembly_parts_loaded_iff (db : List BomRow) (job lot : String) :
    ∀ n ∈ get_assembly_parts db job lot, n.is_loaded = !n.isAssemblyB := by
  intro n hn
  simp only [get_assembly_parts, List.mem_map] at hn
  obtain ⟨w, -, rfl⟩ := hn
  simp only [BOMNode.isAssemblyB, isAssemblyB_of_partNodeType, Bool.not_not]

theorem get_bom_assemblies_invariant (db : List BomRow) (job : String) :
    ∀ a ∈ get_bom_assemblies db job,
      a.is_loaded = false ∧ a.isAssemblyB = true ∧ a.lot_id = "00" := by
  intro a ha
  simp only [get_bom_assemblies, List.mem_map] at ha
  obtain ⟨w, hw, rfl⟩ := ha
  rw [mem_sortByB] at hw
  rw [List.mem_filter] at hw
  refine ⟨rfl, rfl, ?_⟩
  have := hw.2
  simp only [Bool.and_eq_true, beq_iff_eq] at this
  exact this.2

theorem hierarchyStep_depth_le (db : WoDatabase) (m : Nat) (cur : List HierarchyRow) :
    ∀ r ∈ hierarchyStep db m cur, r.depth ≤ m := by
  intro r hr
  simp only [hierarchyStep, List.mem_flatMap] at hr
  obtain ⟨woh, -, req, -, hr⟩ := hr
  by_cases h₁ :
      (req.workorder_base_id == woh.base_id && req.workorder_lot_id == woh.lot_id &&
        req.workorder_sub_id == woh.sub_id) = true
  · rw [if_pos h₁] at hr
    simp only [List.mem_flatMap] at hr
    obtain ⟨wo, -, hr⟩ := hr
    by_cases h₂ :
        (req.subord_wo_sub_id == some wo.sub_id && req.workorder_base_id == wo.base_id &&
          req.workorder_lot_id == wo.lot_id && decide (woh.depth < m) &&
          !strContains woh.path (woKeyStr wo)) = true
    · rw [if_pos h₂] at hr
      simp only [List.mem_singleton] at hr
      subst hr
      simp only [Bool.and_eq_true, decide_eq_true_eq] at h₂
      exact h₂.1.2
    · rw [if_neg h₂] at hr
      exact absurd hr (List.not_mem_nil r)
  · rw [if_neg h₁] at hr
    exact absurd hr (List.not_mem_nil r)

theorem hierarchyLevels_depth_le (db : WoDatabase) (m : Nat) :
    ∀ (fuel : Nat) (cur : List HierarchyRow), (∀ r ∈ cur, r.depth ≤ m) →
      ∀ r ∈ hierarchyLevels db m fuel cur, r.depth ≤ m := by
  intro fuel
  induction fuel with
  | zero => intro cur _ r hr; exact absurd hr (List.not_mem_nil r)
  | succ fuel ih =>
    intro cur hcur r hr
    simp only [hierarchyLevels, List.mem_append] at hr
    rcases hr with hr | hr
    · exact hcur r hr
    · exact ih (hierarchyStep db m cur) (hierarchyStep_depth_le db m cur) r hr

theorem get_work_order_hierarchy_depth_le (db : WoDatabase) (b l s : String) (m : Nat) :
    ∀ r ∈ get_work_order_hierarchy db b l s m, r.depth ≤ m := by
  intro r hr
  rw [get_work_order_hierarchy, mem_sortByB] at hr
  refine hierarchyLevels_depth_le db m (m + 1) (hierarchyAnchor db b l s) ?_ r hr
  intro r' hr'
  simp only [hierarchyAnchor, List.mem_map] at hr'
  obtain ⟨w, -, rfl⟩ := hr'
  exact Nat.zero_le m

/-! The eager builder visits, below one assembly, exactly the nodes the
fully-expanded lazy tree shows below it, in the same order, up to the
`depth` field the eager builder rewrites. -/

theorem eager_desc_eq_lazy (db : List BomRow) (job : String) :
    ∀ (fuel : Nat) (lot : String) (d : Nat),
      (loadHierarchyRec db job (fuel + 1) lot d).map bomShape =
        ((get_assembly_parts db job lot).flatMap (lazyPreorder db job fuel)).map bomShape := by
  intro fuel
  induction fuel with
  | zero =>
    intro lot d
    rw [loadHierarchyRec]
    rw [map_flatMap_comm, map_flatMap_comm]
    refine flatMap_congr_mem ?_
    intro p _
    cases hA : p.isAssemblyB <;>
      simp [lazyPreorder, loadHierarchyRec, hA, bomShape]
  | succ fuel ih =>
    intro lot d
    rw [loadHierarchyRec]
    rw [map_flatMap_comm, map_flatMap_comm]
    refine flatMap_congr_mem ?_
    intro p hp
    have hload := get_assembly_parts_loaded_iff db job lot p hp
    cases hA : p.isAssemblyB
    · have : p.is_loaded = true := by rw [hload, hA]; rfl
      simp [lazyPreorder, hA, this, bomShape]
    · have : p.is_loaded = false := by rw [hload, hA]; rfl
      simp only [lazyPreorder, hA, this, Bool.not_false, Bool.and_self, if_pos,
        List.map_cons, if_true]
      congr 1
      exact ih p.lot_id (d + 1)

theorem map_append_flatMap_perm (g : α → β) (D : α → List β) :
    ∀ as : List α, (as.map g ++ as.flatMap D).Perm (as.flatMap fun a => g a :: D a) := by
  intro as
  induction as with
  | nil => exact List.Perm.refl []
  | cons a as ih =>
    simp only [List.map_cons, List.flatMap_cons, List.cons_append]
    refine List.Perm.cons (g a) ?_
    have h₁ : (as.map g ++ (D a ++ as.flatMap D)).Perm
        (D a ++ (as.map g ++ as.flatMap D)) := by
      rw [← List.append_assoc, ← List.append_assoc]
      exact List.perm_append_comm.append_right (as.flatMap D)
    exact h₁.trans (ih.append_left (D a))

/-! ## Claim theorems -/

/-- Claim C1, counterexample: the lazy sub-work-order expansion consults
no path-to-root key set.  In `dbAB` (work order A = 8113/26/0 whose
sub-work-order requirement points to B = 8113/26/346, and B pointing back
to A), expanding the root produces the child node for B, and expanding
that node issues the child query again and produces one child whose
composite key is exactly the root's — not zero children. -/
theorem C1_counterexample_lazy_expansion_has_no_path_guard :
    loadAllRequirements dbAB rootNodeA = [subNodeB] ∧
    loadAllRequirements dbAB subNodeB = [subNodeA] ∧
    subNodeA.base_id = rootNodeA.base_id ∧
    subNodeA.lot_id = rootNodeA.lot_id ∧
    subNodeA.sub_id = rootNodeA.sub_id := by
  decide

/-- Claim C1, amended: only the recursive full-hierarchy query truncates
cycles, via substring containment of the child's composite-key string in
the accumulated path.  On the A-to-B-to-A dataset, the service-level build
from A with maxDepth = 10 terminates with exactly A once (depth 0) and B
once (depth 1); the back edge from B to A is suppressed, so B contributes
zero further rows. -/
theorem C1_hierarchy_query_truncates_cycle :
    serviceGetWorkOrderHierarchy dbAB "8113" "26" "0" 10 =
      Except.ok
        [ { base_id := "8113", lot_id := "26", sub_id := "0", part_id := "PARTA"
            depth := 0, path := "8113/26/0" }
        , { base_id := "8113", lot_id := "26", sub_id := "346", part_id := "PARTB"
            depth := 1, path := "8113/26/0 -> 8113/26/346" } ] := by
  rfl

/-- Claim C3, counterexample: the eager BOM build has no depth bound at
all.  On an acyclic 13-level chain of assemblies, `get_bom_hierarchy`
(which takes no maxDepth parameter) produces a node at depth 12, deeper
than the claimed default bound of 10. -/
theorem C3_counterexample_bom_build_exceeds_depth_ten :
    ((get_bom_hierarchy bomChainDb "J" 20).any fun n => decide (10 < n.depth)) = true := by
  decide

/-- Claim C3, amended: the depth bound holds for the work-order hierarchy
query: the service rejects any maxDepth outside 1..50 with a ValueError,
accepts one inside the range, and every row the recursive query produces
has depth at most the supplied bound (a branch reaching the bound simply
stops, without error). -/
theorem C3_work_order_hierarchy_depth_bounded (db : WoDatabase) (b l s : String)
    (m : Int) (n : Nat) :
    (¬ (1 ≤ m ∧ m ≤ 50) →
      serviceGetWorkOrderHierarchy db b l s m =
        Except.error "max_depth must be between 1 and 50") ∧
    ((1 ≤ m ∧ m ≤ 50) →
      serviceGetWorkOrderHierarchy db b l s m =
        Except.ok (get_work_order_hierarchy db b l s m.toNat)) ∧
    (∀ r ∈ get_work_order_hierarchy db b l s n, r.depth ≤ n) := by
  refine ⟨?_, ?_, get_work_order_hierarchy_depth_le db b l s n⟩
  · intro h
    have hc : m < 1 ∨ m > 50 := by omega
    rw [serviceGetWorkOrderHierarchy, if_pos hc]
  · intro h
    have hc : ¬(m < 1 ∨ m > 50) := by omega
    rw [serviceGetWorkOrderHierarchy, if_neg hc]

/-- Witness for C3: maxDepth 0 is rejected, and the concrete row for B in
the `dbAB` hierarchy at maxDepth 10 respects the bound. -/
theorem C3_witness :
    serviceGetWorkOrderHierarchy dbAB "8113" "26" "0" 0 =
      Except.error "max_depth must be between 1 and 50" ∧
    ({ base_id := "8113", lot_id := "26", sub_id := "346", part_id := "PARTB"
       depth := 1, path := "8113/26/0 -> 8113/26/346" } : HierarchyRow).depth ≤ 10 :=
  ⟨(C3_work_order_hierarchy_depth_bounded dbAB "8113" "26" "0" 0 10).1 (by decide),
   (C3_work_order_hierarchy_depth_bounded dbAB "8113" "26" "0" 0 10).2.2 _ (by decide)⟩

/-- Claim C4, counterexample: with two expandable top-level assemblies,
the eager build lists both assemblies before any of their descendants,
while expanding the lazy tree node by node yields pre-order; the two node
sequences differ (sub_ids 1,2,3,3 versus 1,3,2,3). -/
theorem C4_counterexample_eager_lazy_order_differs :
    (get_bom_hierarchy bomTwoAsmDb "J" 3).map (fun n => n.sub_id) = ["1", "2", "3", "3"] ∧
    (lazyExpandAll bomTwoAsmDb "J" 3).map (fun n => n.sub_id) = ["1", "3", "2", "3"] ∧
    (get_bom_hierarchy bomTwoAsmDb "J" 3).map bomShape ≠
      (lazyExpandAll bomTwoAsmDb "J" 3).map bomShape := by
  decide

/-- Claim C4, amended: the eager build and the fully-expanded lazy tree
visit exactly the same nodes through the same per-assembly queries — the
eager node list is a permutation of the lazy pre-order (comparing the
nodes with the depth/load-state fields the eager builder rewrites
normalised) and the leaf counts agree, which covers the large fan-out
scenario; but the sequences themselves coincide only below each single
assembly, not across the top level. -/
theorem C4_eager_lazy_same_nodes_up_to_order (db : List BomRow) (job : String) (fuel : Nat) :
    ((get_bom_hierarchy db job fuel).map bomShape).Perm
      ((lazyExpandAll db job fuel).map bomShape) ∧
    leafCount (get_bom_hierarchy db job fuel) = leafCount (lazyExpandAll db job fuel) := by
  have hperm : ((get_bom_hierarchy db job fuel).map bomShape).Perm
      ((lazyExpandAll db job fuel).map bomShape) := by
    cases fuel with
    | zero =>
      rw [get_bom_hierarchy, lazyExpandAll]
      have h₁ : (get_bom_assemblies db job).flatMap
          (fun a => loadHierarchyRec db job 0 a.lot_id 1) = [] := by
        rw [show (fun a : BOMNode => loadHierarchyRec db job 0 a.lot_id 1) =
            fun _ => ([] : List BOMNode) from rfl]
        exact flatMap_const_nil _
      have h₂ : (get_bom_assemblies db job).flatMap (lazyPreorder db job 0) =
          get_bom_assemblies db job := by
        rw [show (lazyPreorder db job 0) = fun a => [a] from rfl]
        exact flatMap_id_singleton _
      rw [h₁, h₂, List.append_nil]
    | succ fuel =>
      rw [get_bom_hierarchy, lazyExpandAll]
      rw [List.map_append, map_flatMap_comm, map_flatMap_comm]
      have h₁ : (get_bom_assemblies db job).flatMap
            (fun a => (loadHierarchyRec db job (fuel + 1) a.lot_id 1).map bomShape) =
          (get_bom_assemblies db job).flatMap
            (fun a => ((get_assembly_parts db job a.lot_id).flatMap
              (lazyPreorder db job fuel)).map bomShape) :=
        flatMap_congr_mem fun a _ => eager_desc_eq_lazy db job fuel a.lot_id 1
      have h₂ : (get_bom_assemblies db job).flatMap
            (fun a => (lazyPreorder db job (fuel + 1) a).map bomShape) =
          (get_bom_assemblies db job).flatMap
            (fun a => bomShape a :: ((get_assembly_parts db job a.lot_id).flatMap
              (lazyPreorder db job fuel)).map bomShape) := by
        refine flatMap_congr_mem ?_
        intro a ha
        obtain ⟨hload, hasm, -⟩ := get_bom_assemblies_invariant db job a ha
        simp [lazyPreorder, hload, hasm]
      rw [h₁, h₂]
      exact map_append_flatMap_perm bomShape _ _
  refine ⟨hperm, ?_⟩
  have h := hperm.countP_eq (fun n => !n.isAssemblyB)
  rw [List.countP_map, List.countP_map] at h
  exact h

/-- Claim C2: expanding a node twice with no intervening data change is
idempotent and queries at most once.  For the work-order widget: after a
successful first expansion `children_loaded` is true, the children are the
query result appended once in order, exactly one query was issued, and a
second expansion returns the state unchanged.  The BOM tree behaves the
same way through `is_loaded` and `add_parts_to_assembly`. -/
theorem C2_expand_idempotent_query_at_most_once
    (cs : List TreeNodeData) (st : ExpandState)
    (parts : List BOMNode) (bst : BomExpandState)
    (h₁ : st.children_loaded = false)
    (h₂ : bst.is_loaded = false) (h₃ : bst.is_assembly = true) :
    (onItemExpanded (Except.ok cs) st).children_loaded = true ∧
    onItemExpanded (Except.ok cs) (onItemExpanded (Except.ok cs) st) =
      onItemExpanded (Except.ok cs) st ∧
    (onItemExpanded (Except.ok cs) st).children =
      st.children ++ cs.map ChildItem.dataItem ∧
    (onItemExpanded (Except.ok cs) st).query_count = st.query_count + 1 ∧
    (bomOnItemExpanded parts bst).is_loaded = true ∧
    bomOnItemExpanded parts (bomOnItemExpanded parts bst) = bomOnItemExpanded parts bst ∧
    (bomOnItemExpanded parts bst).children = bst.children ++ parts ∧
    (bomOnItemExpanded parts bst).query_count = bst.query_count + 1 := by
  simp [onItemExpanded, bomOnItemExpanded, h₁, h₂, h₃, addPartsToAssembly_eq_append]

/-- Witness for C2 at a fresh node and a fresh assembly item. -/
theorem C2_witness :
    (onItemExpanded (Except.ok [subNodeB])
        { children_loaded := false, children := [], query_count := 0 }).children_loaded =
      true ∧
    (bomOnItemExpanded []
        { is_loaded := false, is_assembly := true, children := [], has_dummy := true
          query_count := 0 }).query_count = 0 + 1 :=
  ⟨(C2_expand_idempotent_query_at_most_once [subNodeB]
      { children_loaded := false, children := [], query_count := 0 } []
      { is_loaded := false, is_assembly := true, children := [], has_dummy := true
        query_count := 0 } rfl rfl rfl).1,
   (C2_expand_idempotent_query_at_most_once [subNodeB]
      { children_loaded := false, children := [], query_count := 0 } []
      { is_loaded := false, is_assembly := true, children := [], has_dummy := true
        query_count := 0 } rfl rfl rfl).2.2.2.2.2.2.2⟩

/-- Claim C5: in detailed mode an operation's children are the single
merged sequence ordered by requirement piece number then operation
sequence.  On the scenario dataset (plain requirements at pieces 1 and 3,
a child-work-order requirement at piece 2 whose child work order has one
operation) the result is requirement(piece 1), requirement(piece 2),
child operation, requirement(piece 3) — not the two blocks
concatenated. -/
theorem C5_flattened_merge_order :
    loadRequirementsShown true (get_operation_children dbMerge "6671" "28" "0" 10) =
      [ { item_type := "REQUIREMENT", item_id := "M100", sort_order_1 := some 1
          sort_order_2 := 0, operation_seq_no := some 10, subord_wo_sub_id := none }
      , { item_type := "REQUIREMENT", item_id := "", sort_order_1 := some 2
          sort_order_2 := 0, operation_seq_no := some 10, subord_wo_sub_id := some "1" }
      , { item_type := "CHILD_OPERATION", item_id := "10 500", sort_order_1 := some 2
          sort_order_2 := 10, operation_seq_no := none, subord_wo_sub_id := some "1" }
      , { item_type := "REQUIREMENT", item_id := "M300", sort_order_1 := some 3
          sort_order_2 := 0, operation_seq_no := some 10, subord_wo_sub_id := none } ] := by
  decide

/-- Claim C6: when the child query fails, a single synthetic error child
carrying the failure message is attached, `children_loaded` stays false,
exactly one query was issued, and the next expansion — and only an
expansion — issues the query again (whatever its outcome). -/
theorem C6_failure_attaches_error_child_and_retries
    (msg : String) (st : ExpandState) (h : st.children_loaded = false) :
    (onItemExpanded (Except.error msg) st).children =
      st.children ++ [ChildItem.errorItem ("Error: " ++ msg)] ∧
    (onItemExpanded (Except.error msg) st).children_loaded = false ∧
    (onItemExpanded (Except.error msg) st).query_count = st.query_count + 1 ∧
    ∀ loader : Except String (List TreeNodeData),
      (onItemExpanded loader (onItemExpanded (Except.error msg) st)).query_count =
        st.query_count + 2 := by
  refine ⟨?_, ?_, ?_, ?_⟩
  · simp [onItemExpanded, h]
  · simp [onItemExpanded, h]
  · simp [onItemExpanded, h]
  · intro loader
    cases loader <;> simp [onItemExpanded, h]

/-- Witness for C6 at a fresh node and a concrete failure. -/
theorem C6_witness :
    (onItemExpanded (Except.error "connection lost")
        { children_loaded := false, children := [], query_count := 0 }).children =
      [ChildItem.errorItem "Error: connection lost"] ∧
    (onItemExpanded (Except.error "connection lost")
        { children_loaded := false, children := [], query_count := 0 }).children_loaded =
      false :=
  ⟨(C6_failure_attaches_error_child_and_retries "connection lost" _ rfl).1,
   (C6_failure_attaches_error_child_and_retries "connection lost" _ rfl).2.1⟩

/-- Claim C7: a failed child query surfaces as a typed service error
carrying the underlying cause and is never converted into an empty list,
while a legitimately empty result is returned as an empty list, not an
error: empty and failed are distinct outcomes. -/
theorem C7_failed_query_typed_error_not_empty_list (e : DbError) (rows : List ReqRow) :
    serviceGetRequirementsBySubId (Except.error e) =
      Except.error
        { message := "Database error loading requirements by SUB_ID: " ++ e.message
          cause := some e } ∧
    serviceGetRequirementsBySubId (Except.ok rows) = Except.ok rows ∧
    serviceGetRequirementsBySubId (Except.error e) ≠ Except.ok ([] : List ReqRow) := by
  refine ⟨rfl, rfl, fun hcontra => ?_⟩
  exact Except.noConfusion hcontra

/-- Witness for C7 at a concrete failure and the empty result. -/
theorem C7_witness :
    serviceGetRequirementsBySubId (Except.error { message := "timeout" }) =
      Except.error
        { message := "Database error loading requirements by SUB_ID: timeout"
          cause := some { message := "timeout" } } ∧
    serviceGetRequirementsBySubId (Except.ok ([] : List ReqRow)) =
      Except.ok ([] : List ReqRow) :=
  ⟨(C7_failed_query_typed_error_not_empty_list { message := "timeout" } []).1,
   (C7_failed_query_typed_error_not_empty_list { message := "timeout" } []).2.1⟩

/-- Claim C8, counterexample: the parts-query classifier never consults
the row's LOT_ID.  A row with LOT_ID "00" reached through the parts query
with the purchased flag set and no children is classified purchased/red,
not Assembly/blue. -/
theorem C8_counterexample_lot00_row_not_assembly :
    (get_assembly_parts bomLot00PartDb "J" "10").map
        (fun n => (n.lot_id, n.node_type, n.display_color)) =
      [("00", "purchased", "red")] := by
  decide

/-- Claim C8, amended: rows of the top-level assembly query (all with
LOT_ID "00") are always Assembly/blue; rows of the parts query are
classified from the has-children flag first, then the purchased flag,
else manufactured — without consulting LOT_ID; and the kind-to-category
mapping is the fixed table assembly/blue, purchased/red,
manufactured/black. -/
theorem C8_amended_classification_table (db : List BomRow) (job lot : String) :
    (∀ a ∈ get_bom_assemblies db job,
        a.lot_id = "00" ∧ a.node_type = "assembly" ∧ a.display_color = "blue") ∧
    (∀ n ∈ get_assembly_parts db job lot,
        ∃ hc : Bool, n.node_type = partNodeType hc n.is_purchased) ∧
    partNodeType true false = "assembly" ∧ partNodeType true true = "assembly" ∧
    partNodeType false true = "purchased" ∧ partNodeType false false = "manufactured" ∧
    (∀ n : BOMNode, n.node_type = "assembly" → n.display_color = "blue") ∧
    (∀ n : BOMNode, n.node_type = "purchased" → n.display_color = "red") ∧
    (∀ n : BOMNode, n.node_type = "manufactured" → n.display_color = "black") := by
  refine ⟨?_, ?_, rfl, rfl, rfl, rfl, ?_, ?_, ?_⟩
  · intro a ha
    simp only [get_bom_assemblies, List.mem_map] at ha
    obtain ⟨w, hw, rfl⟩ := ha
    rw [mem_sortByB, List.mem_filter] at hw
    have := hw.2
    simp only [Bool.and_eq_true, beq_iff_eq] at this
    exact ⟨this.2, rfl, rfl⟩
  · intro n hn
    simp only [get_assembly_parts, List.mem_map] at hn
    obtain ⟨w, -, rfl⟩ := hn
    exact ⟨hasChildrenFlag db w, rfl⟩
  · intro n h
    simp [BOMNode.display_color, h]
  · intro n h
    simp [BOMNode.display_color, h]
  · intro n h
    simp [BOMNode.display_color, h]

/-- Witness for C8: the LOT_ID "00" row of `bomLot00PartDb` is blue when
reached as a top-level assembly, and the parts-query node for the same row
is classified from its flags alone. -/
theorem C8_witness :
    ({ job_number := "J", lot_id := "00", sub_id := "2", base_lot_id := some "10"
       part_id := "PX", node_type := "assembly", is_fabricated := false
       is_purchased := true, depth := 0, is_loaded := false } : BOMNode).display_color =
      "blue" ∧
    ∃ hc : Bool,
      ({ job_number := "J", lot_id := "00", sub_id := "2", base_lot_id := some "10"
         part_id := "PX", node_type := "purchased", is_fabricated := false
         is_purchased := true, depth := 1, is_loaded := true } : BOMNode).node_type =
        partNodeType hc true :=
  ⟨(((C8_amended_classification_table bomLot00PartDb "J" "10").1 _ (by decide)).2.2),
   ((C8_amended_classification_table bomLot00PartDb "J" "10").2.1 _ (by decide))⟩

/-- Claim C9: the tree layer attaches query rows one item per row in
query order — never re-sorted, duplicates kept as distinct siblings — for
`_load_operations` and for `add_parts_to_assembly`. -/
theorem C9_tree_layer_preserves_query_order
    (nd : TreeNodeData) (ops : List OpRow) (c1 c2 c3 : OpRow)
    (existing parts : List BOMNode) :
    loadOperationsItems nd ops = ops.map (opItem nd) ∧
    loadOperationsItems nd [c1, c2, c3] = [opItem nd c1, opItem nd c2, opItem nd c3] ∧
    loadOperationsItems nd [c1, c1] = [opItem nd c1, opItem nd c1] ∧
    addPartsToAssembly existing parts = existing ++ parts :=
  ⟨loadOperationsItems_eq_map nd ops, rfl, rfl, addPartsToAssembly_eq_append parts existing⟩

/-- Claim C10: the recursive query's cycle guard is substring containment
of the candidate's composite-key string in the accumulated path, which is
strictly stronger than exact membership in the path-to-root key set.  In
`dbSubstr` the root 8113/26/10 links to the distinct work order 8113/26/1
and no cycle exists, yet the child is excluded — its key string is a
proper substring of the root's path — while the exact-membership variant
includes it. -/
theorem C10_substring_guard_stronger_than_membership :
    (get_work_order_hierarchy dbSubstr "8113" "26" "10" 10).map (fun r => r.sub_id) =
      ["10"] ∧
    (keySetWorkOrderHierarchy dbSubstr "8113" "26" "10" 10).map (fun r => r.sub_id) =
      ["10", "1"] ∧
    strContains "8113/26/10" "8113/26/1" = true ∧
    (["8113/26/10"] : List String).contains "8113/26/1" = false := by
  decide

end VisualOrderLookup
